import Mathlib

/-!
Shallow embedding of the codexoft M-Pesa Node.js SDK client
(`src/mpesa.ts`).  Pure computations (config validation, password
derivation, phone normalization, payload assembly) are translated
directly; the HTTPS transport is modelled by an explicit `World` oracle
and every operation returns its result together with the list of network
events it performed, so that claims about "no network call" and about
the exact payload sent are statable.
-/

/-- JSON-style values appearing in request payloads and response bodies
(strings, numbers, `null`, and JavaScript `undefined`). -/
inductive JVal where
  | jstr : String → JVal
  | jnum : Int → JVal
  | jnull : JVal
  | jundefined : JVal
deriving DecidableEq, Repr, Inhabited

/-- JavaScript truthiness of a `JVal`: empty strings, zero, `null` and
`undefined` are falsy. -/
def JVal.truthy : JVal → Bool
  | .jstr s => !s.isEmpty
  | .jnum n => n != 0
  | .jnull => false
  | .jundefined => false

/-- String coercion applied when a `JVal` becomes an error message. -/
def JVal.asString : JVal → String
  | .jstr s => s
  | .jnum n => toString n
  | .jnull => "null"
  | .jundefined => "undefined"

/-- A JSON object (request payload or response body): an association
list of fields, first binding wins. -/
abbrev Body := List (String × JVal)

/-- JavaScript property access `body.k`. -/
def getField (b : Body) (k : String) : Option JVal :=
  (b.find? (fun p => p.1 == k)).map (fun p => p.2)

/-- Field access filtered by truthiness and coerced to a string, the
meaning of one link of an `a.k || ...` error-message fallback chain. -/
def truthyStrField (b : Body) (k : String) : Option String :=
  match getField b k with
  | some v => if v.truthy then some v.asString else none
  | none => none

/-- Optional-chained variant `b?.k` used on `error.response?.data`. -/
def truthyStrFieldO (b : Option Body) (k : String) : Option String :=
  b.bind (fun x => truthyStrField x k)

/-- JavaScript `a || b` on strings (empty string is falsy). -/
def jsOrStr (a b : String) : String := if a.isEmpty then b else a

/-- An `Option String` rendered as a payload value (`null` when absent). -/
def jvalOfOptStr : Option String → JVal
  | some s => .jstr s
  | none => .jnull

/-- A JavaScript `string | number` argument, as taken by
`formatPhoneNumber` and the phone parameters of the business methods. -/
inductive PhoneInput where
  | str : String → PhoneInput
  | num : Nat → PhoneInput
deriving DecidableEq, Repr

/-- JavaScript falsiness of a `string | number` value: the empty string
and the number `0`. -/
def PhoneInput.jsFalsy : PhoneInput → Bool
  | .str s => s.isEmpty
  | .num n => n == 0

/-- JavaScript `toString()` on a `string | number` value. -/
def PhoneInput.toStr : PhoneInput → String
  | .str s => s
  | .num n => toString n

/-- Embeds `Mpesa.formatPhoneNumber` (src/mpesa.ts lines 113-129):
falsy input gives `null`; a 9-character rendering is prefixed with
`254`; a 10-character rendering drops its first character and is
prefixed with `254`; every other length is returned unchanged (the
source's `startsWith('254')` ternary has identical branches and is kept
as written). -/
def formatPhoneNumber (phoneNumber : PhoneInput) : Option String :=
  if phoneNumber.jsFalsy then none
  else
    let numberStr := phoneNumber.toStr
    if numberStr.length = 9 then some ("254" ++ numberStr)
    else if numberStr.length = 10 then some ("254" ++ numberStr.drop 1)
    else some (if numberStr.startsWith "254" then numberStr else numberStr)

/-- UTF-8 encoding of a single character, the byte-level meaning of
Node's `Buffer.from(string)`. -/
def utf8EncodeCharBytes (c : Char) : List Nat :=
  let n := c.toNat
  if n < 128 then [n]
  else if n < 2048 then [192 + n / 64, 128 + n % 64]
  else if n < 65536 then [224 + n / 4096, 128 + n / 64 % 64, 128 + n % 64]
  else [240 + n / 262144, 128 + n / 4096 % 64, 128 + n / 64 % 64, 128 + n % 64]

/-- Byte sequence of a string under UTF-8 (`Buffer.from(s)`). -/
def strBytes (s : String) : List Nat := s.data.flatMap utf8EncodeCharBytes

/-- Standard base64 alphabet. -/
def base64Alphabet : String :=
  "ABCDEFGHIJKLMNOPQRSTUVWXYZabcdefghijklmnopqrstuvwxyz0123456789+/"

/-- Character for a 6-bit group. -/
def b64Char (n : Nat) : Char := base64Alphabet.toList.getD n 'A'

/-- Base64 character stream of a byte list, processed three bytes at a
time with `=` padding (`Buffer.prototype.toString('base64')`). -/
def base64Chunks : List Nat → List Char
  | [] => []
  | [a] => [b64Char (a / 4), b64Char (a % 4 * 16), '=', '=']
  | [a, b] => [b64Char (a / 4), b64Char (a % 4 * 16 + b / 16), b64Char (b % 16 * 4), '=']
  | a :: b :: c :: rest =>
      b64Char (a / 4) :: b64Char (a % 4 * 16 + b / 16) ::
        b64Char (b % 16 * 4 + c / 64) :: b64Char (c % 64) :: base64Chunks rest

/-- Base64 encoding of a byte list. -/
def base64Encode (bs : List Nat) : String := String.mk (base64Chunks bs)

/-- The `credentials` bundle of `MpesaConfig`; fields are `Option` so a
field can be absent, as an untyped JavaScript caller can arrange. -/
structure Credentials where
  passKey : Option String
  initiatorName : Option String
  initiatorPass : Option String
deriving DecidableEq, Repr

/-- The `appInfo` bundle of `MpesaConfig`. -/
structure AppInfo where
  consumerKey : Option String
  consumerSecret : Option String
deriving DecidableEq, Repr

/-- The constructor configuration object (`MpesaConfig` in
src/mpesa.ts); every field may be absent. -/
structure MpesaConfig where
  env : Option String
  requester : Option String
  shortCodeType : Option String
  businessShortCode : Option String
  credentials : Option Credentials
  appInfo : Option AppInfo
deriving DecidableEq, Repr

/-- JavaScript falsiness of an optional string field (`!config[key]`):
absent or the empty string. -/
def ofalsy : Option String → Bool
  | none => true
  | some s => s.isEmpty

/-- Message thrown for a missing top-level configuration key. -/
def cfgMsg (k : String) : String := "Missing required configuration parameter: " ++ k

/-- Message thrown for a missing credentials key. -/
def credMsg (k : String) : String := "Missing required credentials parameter: " ++ k

/-- Message thrown for a missing appInfo key. -/
def appMsg (k : String) : String := "Missing required appInfo parameter: " ++ k

/-- Embeds `Mpesa.validateConfig` (src/mpesa.ts lines 43-64): three
`forEach` loops in source order; the first falsy required field throws
its message. -/
def validateConfig (config : MpesaConfig) : Except String Unit :=
  if ofalsy config.env then .error (cfgMsg "env")
  else
    match config.credentials with
    | none => .error (cfgMsg "credentials")
    | some cred =>
      match config.appInfo with
      | none => .error (cfgMsg "appInfo")
      | some app =>
        if ofalsy config.businessShortCode then .error (cfgMsg "businessShortCode")
        else if ofalsy config.shortCodeType then .error (cfgMsg "shortCodeType")
        else if ofalsy config.requester then .error (cfgMsg "requester")
        else if ofalsy cred.passKey then .error (credMsg "passKey")
        else if ofalsy cred.initiatorPass then .error (credMsg "initiatorPass")
        else if ofalsy cred.initiatorName then .error (credMsg "initiatorName")
        else if ofalsy app.consumerKey then .error (appMsg "consumerKey")
        else if ofalsy app.consumerSecret then .error (appMsg "consumerSecret")
        else .ok ()

/-- Embeds `Mpesa.generatePassword` (src/mpesa.ts lines 66-69):
base64 of the UTF-8 bytes of the string concatenation
`businessShortCode + passKey + timeStamp`. -/
def generatePassword (businessShortCode passKey timeStamp : String) : String :=
  base64Encode (strBytes (businessShortCode ++ passKey ++ timeStamp))

/-- The constructed client (the readonly fields of class `Mpesa`). -/
structure Mpesa where
  environment : String
  requester : String
  timeStamp : String
  shortCodeType : String
  passKey : String
  businessShortCode : String
  baseUrl : String
  consumerSecret : String
  initiatorName : String
  initiatorPass : String
  consumerKey : String
  shortCodePassword : String
  securityCredential : String
deriving DecidableEq, Repr

/-- Field assignments of the `Mpesa` constructor after validation has
passed (src/mpesa.ts lines 26-40).  The construction-time clock value
`timeStamp` (the source derives it from `new Date()`) and the
RSA-PKCS#1 ciphertext `securityCredential` (randomized encryption over
a bundled certificate file) depend on ambient effects outside the
program text and enter as parameters. -/
def buildMpesa (config : MpesaConfig) (timeStamp securityCredential : String) : Mpesa :=
  let bsc := config.businessShortCode.getD ""
  let pk := (config.credentials.map (fun c => c.passKey)).join.getD ""
  { environment := config.env.getD ""
    requester := config.requester.getD ""
    timeStamp := timeStamp
    shortCodeType := config.shortCodeType.getD ""
    passKey := pk
    businessShortCode := bsc
    baseUrl := if config.env.getD "" = "production" then
        "https://api.safaricom.co.ke" else "https://sandbox.safaricom.co.ke"
    consumerSecret := (config.appInfo.map (fun a => a.consumerSecret)).join.getD ""
    initiatorName := (config.credentials.map (fun c => c.initiatorName)).join.getD ""
    initiatorPass := (config.credentials.map (fun c => c.initiatorPass)).join.getD ""
    consumerKey := (config.appInfo.map (fun a => a.consumerKey)).join.getD ""
    shortCodePassword := generatePassword bsc pk timeStamp
    securityCredential := securityCredential }

/-- Embeds the `Mpesa` constructor (src/mpesa.ts lines 23-41):
validate, then assign every readonly field. -/
def mkMpesa (config : MpesaConfig) (timeStamp securityCredential : String) :
    Except String Mpesa :=
  match validateConfig config with
  | .error e => .error e
  | .ok _ => .ok (buildMpesa config timeStamp securityCredential)

/-- Outcome of one HTTPS exchange at the transport boundary: either no
HTTP response at all (network error, with the transport's message) or a
response with a status code and body (`none` models an empty/falsy
body). -/
inductive HttpOutcome where
  | netError : String → HttpOutcome
  | http : Nat → Option Body → HttpOutcome

/-- What the axios promise delivers for a transport outcome: with the
default `validateStatus` (the source passes none), axios resolves
exactly for 2xx statuses and rejects otherwise; a rejection carries the
error message — `Request failed with status code N` for an HTTP error —
and the response data when a response exists. -/
inductive AxiosResult where
  | resolved : Nat → Option Body → AxiosResult
  | rejected : String → Option Body → AxiosResult

/-- Resolution behaviour of an axios call. -/
def axiosCall : HttpOutcome → AxiosResult
  | .netError m => .rejected m none
  | .http status data =>
      if 200 ≤ status ∧ status < 300 then .resolved status data
      else .rejected ("Request failed with status code " ++ toString status) data

/-- One observable network action: the OAuth token GET, or a business
POST with its endpoint and payload. -/
inductive NetEvent where
  | tokenFetch : NetEvent
  | post : String → Body → NetEvent
deriving DecidableEq, Repr

/-- The environment an operation runs against: the transport outcome of
the token GET, the transport outcome of each POST (keyed by endpoint and
payload), and the ambient `Date.now()` / `Math.random()` draws used by
`initiateB2BExpressCheckout`. -/
structure World where
  tokenResult : HttpOutcome
  postResult : String → Body → HttpOutcome
  nowMillis1 : Nat
  nowMillis2 : Nat
  rand1 : String
  rand2 : String

/-- Wrapper the `catch` of `generateAccessToken` applies to any caught
error message. -/
def authWrap (m : String) : String := "Failed to generate access token: " ++ m

/-- Embeds `Mpesa.generateAccessToken` (src/mpesa.ts lines 86-111): on
a resolved GET whose data carries a truthy `access_token`, return it;
otherwise the inner `Failed to generate access token` throw — or the
axios rejection — is caught and rewrapped with the
`Failed to generate access token: ` prefix. -/
def generateAccessToken (w : World) : Except String String :=
  match axiosCall w.tokenResult with
  | .resolved _ data =>
      match data.bind (fun b => getField b "access_token") with
      | some v =>
          if v.truthy then .ok v.asString
          else .error (authWrap "Failed to generate access token")
      | none => .error (authWrap "Failed to generate access token")
  | .rejected m _ => .error (authWrap m)

/-- The `MpesaResponse` shape `{response, httpCode}` of src/mpesa.ts. -/
structure MpesaResponse where
  response : Option Body
  httpCode : Nat
deriving DecidableEq, Repr

/-- Embeds `Mpesa.sendRequest` (src/mpesa.ts lines 131-156): fetch a
token, POST the payload, and return `{response, httpCode}` when the
axios promise resolves; any caught error is rethrown with message
`error.response?.data?.errorMessage || error.response?.data?.ResponseDescription || error.message`.
The returned event list records which network calls were performed. -/
def sendRequest (w : World) (endpoint : String) (data : Body) :
    Except String MpesaResponse × List NetEvent :=
  match generateAccessToken w with
  | .error m => (.error m, [.tokenFetch])
  | .ok _ =>
      match axiosCall (w.postResult endpoint data) with
      | .resolved status body => (.ok ⟨body, status⟩, [.tokenFetch, .post endpoint data])
      | .rejected m respData =>
          (.error (((truthyStrFieldO respData "errorMessage").orElse
              (fun _ => truthyStrFieldO respData "ResponseDescription")).getD m),
            [.tokenFetch, .post endpoint data])

/-- The response postlude every public method repeats verbatim: throw
`No response received` on a falsy body; on `httpCode !== 200` throw
`response.ResponseMessage || response.errorMessage || Request failed with status N`
(`initiateB2BExpressCheckout` and `mpesaRatiba` skip the
`ResponseMessage` link, controlled by `useResponseMessage`); otherwise
return the body. -/
def finalize (useResponseMessage : Bool) (r : Except String MpesaResponse) :
    Except String Body :=
  match r with
  | .error m => .error m
  | .ok resp =>
      match resp.response with
      | none => .error "No response received"
      | some body =>
          if resp.httpCode ≠ 200 then
            .error (((if useResponseMessage then truthyStrField body "ResponseMessage"
                else none).orElse
                (fun _ => truthyStrField body "errorMessage")).getD
                ("Request failed with status " ++ toString resp.httpCode))
          else .ok body

/-- Dispatch plus postlude, the shared tail of every public method. -/
def dispatch (useResponseMessage : Bool) (w : World) (endpoint : String) (data : Body) :
    Except String Body × List NetEvent :=
  let p := sendRequest w endpoint data
  (finalize useResponseMessage p.1, p.2)

/-- Payload of `stkPush` (src/mpesa.ts lines 177-189). -/
def stkPushPayload (c : Mpesa) (amount : Int) (phoneNumber : PhoneInput)
    (accountNumber callBackUrl description : String) : Body :=
  let formattedPhone := jvalOfOptStr (formatPhoneNumber phoneNumber)
  [("Amount", .jnum amount),
   ("PartyA", formattedPhone),
   ("CallBackURL", .jstr callBackUrl),
   ("Timestamp", .jstr c.timeStamp),
   ("TransactionDesc", .jstr description),
   ("PhoneNumber", formattedPhone),
   ("PartyB", .jstr c.businessShortCode),
   ("AccountReference", .jstr accountNumber),
   ("TransactionType", .jstr "CustomerPayBillOnline"),
   ("BusinessShortCode", .jstr c.businessShortCode),
   ("Password", .jstr c.shortCodePassword)]

/-- Embeds `Mpesa.stkPush` (src/mpesa.ts lines 163-204). -/
def Mpesa.stkPush (c : Mpesa) (w : World) (amount : Int) (phoneNumber : PhoneInput)
    (accountNumber callBackUrl description : String) :
    Except String Body × List NetEvent :=
  if phoneNumber.jsFalsy then (.error "Phone number is required", [])
  else if amount = 0 then (.error "Amount is required", [])
  else if accountNumber.isEmpty then (.error "Account Number is required", [])
  else if callBackUrl.isEmpty then (.error "Callback url is required", [])
  else dispatch true w "mpesa/stkpush/v1/processrequest"
    (stkPushPayload c amount phoneNumber accountNumber callBackUrl description)

/-- Payload of `queryOrgInfo` (src/mpesa.ts lines 222-225). -/
def queryOrgInfoPayload (identifierType : Int) (shortCode : String) : Body :=
  [("IdentifierType", .jnum identifierType), ("Identifier", .jstr shortCode)]

/-- Embeds `Mpesa.queryOrgInfo` (src/mpesa.ts lines 206-240): the
`switch` maps `till` to identifier type 2 and `paybill` to 4; any other
value throws `Identifier type is not supported` before any dispatch. -/
def Mpesa.queryOrgInfo (c : Mpesa) (w : World) (type shortCode : String) :
    Except String Body × List NetEvent :=
  let identifierType : Except String Int :=
    if type = "till" then .ok 2
    else if type = "paybill" then .ok 4
    else .error "Identifier type is not supported"
  match identifierType with
  | .error m => (.error m, [])
  | .ok idT => dispatch true w "sfcverify/v1/query/info" (queryOrgInfoPayload idT shortCode)

/-- Embeds `Mpesa.getBusinessName` (src/mpesa.ts lines 158-161):
queries the client's own shortcode and returns `OrganizationName`
(which is `undefined` when the body lacks it). -/
def Mpesa.getBusinessName (c : Mpesa) (w : World) : Except String JVal × List NetEvent :=
  let p := c.queryOrgInfo w c.shortCodeType c.businessShortCode
  match p.1 with
  | .error m => (.error m, p.2)
  | .ok orgInfo => (.ok ((getField orgInfo "OrganizationName").getD .jundefined), p.2)

/-- Payload of `generateQRCode` given the fetched merchant name
(src/mpesa.ts lines 249-256). -/
def qrCodePayload (c : Mpesa) (merchantName : JVal) (amount : Int)
    (accountNumber : String) (size : Int) : Body :=
  [("MerchantName", merchantName),
   ("RefNo", .jstr accountNumber),
   ("Amount", .jnum amount),
   ("TrxCode", .jstr (if c.shortCodeType = "paybill" then "PB" else "BG")),
   ("CPI", .jstr c.businessShortCode),
   ("Size", .jnum size)]

/-- Embeds `Mpesa.generateQRCode` (src/mpesa.ts lines 242-271): the
payload awaits `getBusinessName`, so a full org-info dispatch precedes
the QR dispatch and its failure propagates. -/
def Mpesa.generateQRCode (c : Mpesa) (w : World) (amount : Int)
    (accountNumber : String) (size : Int) : Except String Body × List NetEvent :=
  if amount = 0 then (.error "Amount is required", [])
  else
    let p := c.getBusinessName w
    match p.1 with
    | .error m => (.error m, p.2)
    | .ok merchantName =>
        let q := dispatch true w "mpesa/qrcode/v1/generate"
          (qrCodePayload c merchantName amount accountNumber size)
        (q.1, p.2 ++ q.2)

/-- Payload of `stkPushQuery` (src/mpesa.ts lines 278-283). -/
def stkPushQueryPayload (c : Mpesa) (checkoutRequestCode : String) : Body :=
  [("BusinessShortCode", .jstr c.businessShortCode),
   ("Password", .jstr c.shortCodePassword),
   ("Timestamp", .jstr c.timeStamp),
   ("CheckoutRequestID", .jstr checkoutRequestCode)]

/-- Embeds `Mpesa.stkPushQuery` (src/mpesa.ts lines 273-298). -/
def Mpesa.stkPushQuery (c : Mpesa) (w : World) (checkoutRequestCode : String) :
    Except String Body × List NetEvent :=
  if checkoutRequestCode.isEmpty then (.error "Checkout request code is required", [])
  else dispatch true w "mpesa/stkpushquery/v1/query" (stkPushQueryPayload c checkoutRequestCode)

/-- Payload of `registerUrl` (src/mpesa.ts lines 308-313). -/
def registerUrlPayload (c : Mpesa) (responseType confirmationUrl validationUrl : String) : Body :=
  [("ShortCode", .jstr c.businessShortCode),
   ("ResponseType", .jstr responseType),
   ("ConfirmationURL", .jstr confirmationUrl),
   ("ValidationURL", .jstr validationUrl)]

/-- Embeds `Mpesa.registerUrl` (src/mpesa.ts lines 300-328): only
`confirmationUrl` and `validationUrl` are validated; `responseType` is
forwarded as given. -/
def Mpesa.registerUrl (c : Mpesa) (w : World)
    (responseType confirmationUrl validationUrl : String) :
    Except String Body × List NetEvent :=
  if confirmationUrl.isEmpty then (.error "Confirmation url is required", [])
  else if validationUrl.isEmpty then (.error "Validation url is required", [])
  else dispatch true w "mpesa/c2b/v2/registerurl"
    (registerUrlPayload c responseType confirmationUrl validationUrl)

/-- Payload of `initiateB2C` (src/mpesa.ts lines 342-353). -/
def b2cPayload (c : Mpesa) (amount : Int) (phoneNumber : PhoneInput)
    (commandID resultUrl queueTimeoutUrl remarks : String) : Body :=
  [("InitiatorName", .jstr c.initiatorName),
   ("SecurityCredential", .jstr c.securityCredential),
   ("CommandID", .jstr commandID),
   ("Amount", .jnum amount),
   ("PartyA", .jstr c.businessShortCode),
   ("PartyB", jvalOfOptStr (formatPhoneNumber phoneNumber)),
   ("Remarks", .jstr remarks),
   ("QueueTimeOutURL", .jstr (jsOrStr queueTimeoutUrl resultUrl)),
   ("ResultURL", .jstr resultUrl),
   ("Occasion", .jstr "")]

/-- Embeds `Mpesa.initiateB2C` (src/mpesa.ts lines 330-368); the
`null` default of `queueTimeoutUrl` is modelled by the falsy empty
string, which `queueTimeoutUrl || resultUrl` treats identically. -/
def Mpesa.initiateB2C (c : Mpesa) (w : World) (amount : Int) (phoneNumber : PhoneInput)
    (commandID resultUrl queueTimeoutUrl remarks : String) :
    Except String Body × List NetEvent :=
  if amount = 0 then (.error "Amount is required", [])
  else if phoneNumber.jsFalsy then (.error "Phone number is required", [])
  else if resultUrl.isEmpty then (.error "Result URL is required", [])
  else dispatch true w "mpesa/b2c/v1/paymentrequest"
    (b2cPayload c amount phoneNumber commandID resultUrl queueTimeoutUrl remarks)

/-- Payload of `transactionStatus` (src/mpesa.ts lines 378-389). -/
def transactionStatusPayload (c : Mpesa) (transactionID resultUrl queueTimeoutUrl : String) : Body :=
  [("Initiator", .jstr c.initiatorName),
   ("SecurityCredential", .jstr c.securityCredential),
   ("CommandID", .jstr "TransactionStatusQuery"),
   ("TransactionID", .jstr transactionID),
   ("PartyA", .jstr c.businessShortCode),
   ("IdentifierType", .jstr (if c.shortCodeType = "paybill" then "4" else "2")),
   ("ResultURL", .jstr resultUrl),
   ("QueueTimeOutURL", .jstr (jsOrStr queueTimeoutUrl resultUrl)),
   ("Remarks", .jstr "Transaction Status Query"),
   ("Occasion", .jstr "")]

/-- Embeds `Mpesa.transactionStatus` (src/mpesa.ts lines 370-404). -/
def Mpesa.transactionStatus (c : Mpesa) (w : World)
    (transactionID resultUrl queueTimeoutUrl : String) :
    Except String Body × List NetEvent :=
  if transactionID.isEmpty then (.error "Transaction ID is required", [])
  else if resultUrl.isEmpty then (.error "Result Url is required", [])
  else dispatch true w "mpesa/transactionstatus/v1/query"
    (transactionStatusPayload c transactionID resultUrl queueTimeoutUrl)

/-- Payload of `accountBalance` (src/mpesa.ts lines 412-422). -/
def accountBalancePayload (c : Mpesa) (resultUrl queueTimeoutUrl : String) : Body :=
  [("Initiator", .jstr c.initiatorName),
   ("SecurityCredential", .jstr c.securityCredential),
   ("CommandID", .jstr "AccountBalance"),
   ("PartyA", .jstr c.businessShortCode),
   ("IdentifierType", .jstr (if c.shortCodeType = "paybill" then "4" else "2")),
   ("ResultURL", .jstr resultUrl),
   ("QueueTimeOutURL", .jstr (jsOrStr queueTimeoutUrl resultUrl)),
   ("Remarks", .jstr "Account Balance Query"),
   ("Occasion", .jstr "")]

/-- Embeds `Mpesa.accountBalance` (src/mpesa.ts lines 406-437). -/
def Mpesa.accountBalance (c : Mpesa) (w : World) (resultUrl queueTimeoutUrl : String) :
    Except String Body × List NetEvent :=
  if resultUrl.isEmpty then (.error "Result Url is required", [])
  else dispatch true w "mpesa/accountbalance/v1/query"
    (accountBalancePayload c resultUrl queueTimeoutUrl)

/-- Payload of `reverseTransaction` (src/mpesa.ts lines 449-461); the
`RecieverIdentifierType` spelling is the source's. -/
def reversalPayload (c : Mpesa) (amount : Int)
    (transactionID resultUrl queueTimeoutUrl : String) : Body :=
  [("Initiator", .jstr c.initiatorName),
   ("SecurityCredential", .jstr c.securityCredential),
   ("CommandID", .jstr "TransactionReversal"),
   ("TransactionID", .jstr transactionID),
   ("Amount", .jnum amount),
   ("ReceiverParty", .jstr c.businessShortCode),
   ("RecieverIdentifierType", .jstr "11"),
   ("ResultURL", .jstr resultUrl),
   ("QueueTimeOutURL", .jstr (jsOrStr queueTimeoutUrl resultUrl)),
   ("Remarks", .jstr "Transaction Reversal"),
   ("Occasion", .jstr "")]

/-- Embeds `Mpesa.reverseTransaction` (src/mpesa.ts lines 439-476). -/
def Mpesa.reverseTransaction (c : Mpesa) (w : World) (amount : Int)
    (transactionID resultUrl queueTimeoutUrl : String) :
    Except String Body × List NetEvent :=
  if transactionID.isEmpty then (.error "Transaction ID is required", [])
  else if amount = 0 then (.error "Amount is required", [])
  else if resultUrl.isEmpty then (.error "Result Url is required", [])
  else dispatch true w "mpesa/reversal/v1/request"
    (reversalPayload c amount transactionID resultUrl queueTimeoutUrl)

/-- Payload of `taxRemittance` (src/mpesa.ts lines 488-501). -/
def taxPayload (c : Mpesa) (amount : Int)
    (paymentRegistrationNo resultUrl queueTimeoutUrl : String) : Body :=
  [("Initiator", .jstr c.initiatorName),
   ("SecurityCredential", .jstr c.securityCredential),
   ("CommandID", .jstr "PayTaxToKRA"),
   ("SenderIdentifierType", .jstr "4"),
   ("RecieverIdentifierType", .jstr "4"),
   ("Amount", .jnum amount),
   ("PartyA", .jstr c.businessShortCode),
   ("PartyB", .jstr "572572"),
   ("AccountReference", .jstr paymentRegistrationNo),
   ("Remarks", .jstr "Tax Remittance"),
   ("QueueTimeOutURL", .jstr (jsOrStr queueTimeoutUrl resultUrl)),
   ("ResultURL", .jstr resultUrl)]

/-- Embeds `Mpesa.taxRemittance` (src/mpesa.ts lines 478-516). -/
def Mpesa.taxRemittance (c : Mpesa) (w : World) (amount : Int)
    (paymentRegistrationNo resultUrl queueTimeoutUrl : String) :
    Except String Body × List NetEvent :=
  if paymentRegistrationNo.isEmpty then (.error "Payment Registration No is required", [])
  else if amount = 0 then (.error "Amount is required", [])
  else if resultUrl.isEmpty then (.error "Result Url is required", [])
  else dispatch true w "mpesa/b2b/v1/remittax"
    (taxPayload c amount paymentRegistrationNo resultUrl queueTimeoutUrl)

/-- The `commandID` record lookup of `initiateB2B` (src/mpesa.ts lines
530-534); a key outside the record yields `undefined`. -/
def b2bCommandID (paymentType : String) : JVal :=
  if paymentType = "PaybillToPaybill" then .jstr "BusinessPayBill"
  else if paymentType = "PaybillToTill" then .jstr "BusinessBuyGoods"
  else if paymentType = "B2BAccountTopUp" then .jstr "BusinessPayToBulk"
  else .jundefined

/-- Payload of `initiateB2B` (src/mpesa.ts lines 536-550). -/
def b2bPayload (c : Mpesa) (amount : Int)
    (paymentType shortCode accountNumber resultUrl queueTimeoutUrl : String) : Body :=
  [("Initiator", .jstr c.initiatorName),
   ("SecurityCredential", .jstr c.securityCredential),
   ("CommandID", b2bCommandID paymentType),
   ("SenderIdentifierType", .jstr "4"),
   ("RecieverIdentifierType", .jstr "4"),
   ("Amount", .jnum amount),
   ("PartyA", .jstr c.businessShortCode),
   ("PartyB", .jstr shortCode),
   ("AccountReference", .jstr accountNumber),
   ("Requester", .jstr c.requester),
   ("Remarks", .jstr "OK"),
   ("QueueTimeOutURL", .jstr (jsOrStr queueTimeoutUrl resultUrl)),
   ("ResultURL", .jstr resultUrl)]

/-- Embeds `Mpesa.initiateB2B` (src/mpesa.ts lines 518-565). -/
def Mpesa.initiateB2B (c : Mpesa) (w : World) (amount : Int)
    (paymentType shortCode accountNumber resultUrl queueTimeoutUrl : String) :
    Except String Body × List NetEvent :=
  if shortCode.isEmpty then (.error "Short code is required", [])
  else if amount = 0 then (.error "Amount is required", [])
  else if resultUrl.isEmpty then (.error "Result Url is required", [])
  else dispatch true w "mpesa/b2b/v1/paymentrequest"
    (b2bPayload c amount paymentType shortCode accountNumber resultUrl queueTimeoutUrl)

/-- Payload of `initiateB2BExpressCheckout` (src/mpesa.ts lines
583-591), with the fresh `B2B_...`/`PAYREFID_...` identifiers built
from the world's clock and random draws. -/
def b2bExpressPayload (c : Mpesa) (w : World) (amount : Int)
    (receiverShortCode callBackUrl partnerName paymentRef requestRef : String) : Body :=
  let requestRefID := "B2B_" ++ toString w.nowMillis1 ++ "_" ++ w.rand1
  let paymentRefID := "PAYREFID_" ++ toString w.nowMillis2 ++ "_" ++ w.rand2
  [("PrimaryPartyCode", .jstr c.businessShortCode),
   ("ReceiverPartyCode", .jstr receiverShortCode),
   ("Amount", .jnum amount),
   ("CallBackUrl", .jstr callBackUrl),
   ("RequestRefID", .jstr (jsOrStr requestRef requestRefID)),
   ("PaymentRef", .jstr (jsOrStr paymentRef paymentRefID)),
   ("PartnerName", .jstr partnerName)]

/-- Embeds `Mpesa.initiateB2BExpressCheckout` (src/mpesa.ts lines
567-605); its success check skips the `ResponseMessage` fallback. -/
def Mpesa.initiateB2BExpressCheckout (c : Mpesa) (w : World) (amount : Int)
    (receiverShortCode callBackUrl partnerName paymentRef requestRef : String) :
    Except String Body × List NetEvent :=
  if amount = 0 then (.error "Amount is required", [])
  else if receiverShortCode.isEmpty then (.error "Short code is required", [])
  else if partnerName.isEmpty then (.error "Partner Name is required", [])
  else if callBackUrl.isEmpty then (.error "Callback Url is required", [])
  else dispatch false w "v1/ussdpush/get-msisdn"
    (b2bExpressPayload c w amount receiverShortCode callBackUrl partnerName paymentRef requestRef)

/-- Payload of `mpesaRatiba` (src/mpesa.ts lines 625-642). -/
def ratibaPayload (c : Mpesa) (amount : Int) (phoneNumber : PhoneInput)
    (accountReference startDate endDate standingOrderName callBackUrl frequency : String) : Body :=
  [("StandingOrderName", .jstr standingOrderName),
   ("StartDate", .jstr startDate),
   ("EndDate", .jstr endDate),
   ("BusinessShortCode", .jstr c.businessShortCode),
   ("TransactionType", .jstr (if c.shortCodeType = "paybill" then
       "Standing Order Customer Pay Bill" else "Standing Order Customer Pay Marchant")),
   ("ReceiverPartyIdentifierType", .jstr (if c.shortCodeType = "paybill" then "4" else "2")),
   ("Amount", .jnum amount),
   ("PartyA", jvalOfOptStr (formatPhoneNumber phoneNumber)),
   ("CallBackURL", .jstr callBackUrl),
   ("AccountReference", .jstr accountReference),
   ("TransactionDesc", .jstr ("Payment to " ++ c.businessShortCode)),
   ("Frequency", .jstr frequency),
   ("Password", .jstr c.shortCodePassword),
   ("Timestamp", .jstr c.timeStamp)]

/-- Embeds `Mpesa.mpesaRatiba` (src/mpesa.ts lines 607-656); its
success check skips the `ResponseMessage` fallback. -/
def Mpesa.mpesaRatiba (c : Mpesa) (w : World) (amount : Int) (phoneNumber : PhoneInput)
    (accountReference startDate endDate standingOrderName callBackUrl frequency : String) :
    Except String Body × List NetEvent :=
  if amount = 0 then (.error "Amount is required", [])
  else if phoneNumber.jsFalsy then (.error "Phone number is required", [])
  else if accountReference.isEmpty then (.error "Account reference is required", [])
  else if callBackUrl.isEmpty then (.error "Callback Url is required", [])
  else if startDate.isEmpty then (.error "Start Date is required", [])
  else if endDate.isEmpty then (.error "End Date is required", [])
  else if standingOrderName.isEmpty then (.error "Standing Order Name is required", [])
  else dispatch false w "mpesa/standingorders/v1/create"
    (ratibaPayload c amount phoneNumber accountReference startDate endDate
      standingOrderName callBackUrl frequency)

/-! Helper lemmas shared by the claim theorems. -/

/-- UTF-8 byte encoding distributes over string concatenation. -/
theorem strBytes_append (a b : String) : strBytes (a ++ b) = strBytes a ++ strBytes b := by
  simp [strBytes, String.data_append, List.flatMap_append]

/-- A failed token fetch makes the dispatcher fail with the same
message after the lone token event. -/
theorem dispatch_token_fail (b : Bool) (w : World) (ep : String) (d : Body) (e : String)
    (h : generateAccessToken w = .error e) :
    dispatch b w ep d = (.error e, [.tokenFetch]) := by
  simp [dispatch, sendRequest, finalize, h]

/-- A successful token fetch makes the dispatcher emit exactly the
token event followed by the POST event, whatever the POST outcome. -/
theorem dispatch_events (b : Bool) (w : World) (ep : String) (d : Body) (tok : String)
    (h : generateAccessToken w = .ok tok) :
    (dispatch b w ep d).2 = [.tokenFetch, .post ep d] := by
  simp only [dispatch, sendRequest, h]
  cases axiosCall (w.postResult ep d) <;> rfl

/-- An HTTP 200 response with a present body is returned unchanged. -/
theorem dispatch_200 (b : Bool) (w : World) (ep : String) (d : Body) (tok : String)
    (body : Body) (h : generateAccessToken w = .ok tok)
    (hp : w.postResult ep d = .http 200 (some body)) :
    dispatch b w ep d = (.ok body, [.tokenFetch, .post ep d]) := by
  simp [dispatch, sendRequest, h, hp, axiosCall, finalize]

/-- An HTTP 200 response with an empty body yields the
`No response received` error. -/
theorem dispatch_200_noBody (b : Bool) (w : World) (ep : String) (d : Body) (tok : String)
    (h : generateAccessToken w = .ok tok)
    (hp : w.postResult ep d = .http 200 none) :
    dispatch b w ep d = (.error "No response received", [.tokenFetch, .post ep d]) := by
  simp [dispatch, sendRequest, h, hp, axiosCall, finalize]

/-- An HTTP 400 response whose body has no truthy `errorMessage` or
`ResponseDescription` surfaces the axios transport message. -/
theorem dispatch_400 (b : Bool) (w : World) (ep : String) (d : Body) (tok : String)
    (body : Body) (h : generateAccessToken w = .ok tok)
    (hp : w.postResult ep d = .http 400 (some body))
    (he : truthyStrField body "errorMessage" = none)
    (hr : truthyStrField body "ResponseDescription" = none) :
    dispatch b w ep d =
      (.error "Request failed with status code 400", [.tokenFetch, .post ep d]) := by
  simp [dispatch, sendRequest, h, hp, axiosCall, finalize, truthyStrFieldO, he, hr,
    Option.orElse]
  rfl

/-! Concrete fixtures used by witness theorems. -/

/-- A fully populated configuration. -/
def cfgA : MpesaConfig :=
  { env := some "sandbox"
    requester := some "254700000000"
    shortCodeType := some "paybill"
    businessShortCode := some "174379"
    credentials := some { passKey := some "pk", initiatorName := some "init",
                          initiatorPass := some "ipass" }
    appInfo := some { consumerKey := some "ck", consumerSecret := some "cs" } }

/-- A configuration whose `env` is absent. -/
def cfgNoEnv : MpesaConfig :=
  { env := none
    requester := some "254700000000"
    shortCodeType := some "paybill"
    businessShortCode := some "174379"
    credentials := some { passKey := some "pk", initiatorName := some "init",
                          initiatorPass := some "ipass" }
    appInfo := some { consumerKey := some "ck", consumerSecret := some "cs" } }

/-- A construction-time timestamp. -/
def tsA : String := "20240101120000"

/-- A concrete constructed client. -/
def mA : Mpesa := buildMpesa cfgA tsA "seccred"

/-- A token endpoint outcome carrying an access token. -/
def tokenOkOutcome : HttpOutcome := .http 200 (some [("access_token", .jstr "tok")])

/-- A generic success body. -/
def bodyA : Body := [("ResponseCode", .jstr "0"), ("ResponseDescription", .jstr "Accepted")]

/-- A world where the token fetch and every POST succeed with 200. -/
def wOk : World :=
  { tokenResult := tokenOkOutcome
    postResult := fun _ _ => .http 200 (some bodyA)
    nowMillis1 := 1700000000000
    nowMillis2 := 1700000000001
    rand1 := "abc123def"
    rand2 := "ghi456jkl"}

/-- A world where the token fetch dies with a network error. -/
def wTokFail : World :=
  { tokenResult := .netError "getaddrinfo ENOTFOUND sandbox.safaricom.co.ke"
    postResult := fun _ _ => .http 200 (some bodyA)
    nowMillis1 := 1700000000000
    nowMillis2 := 1700000000001
    rand1 := "abc123def"
    rand2 := "ghi456jkl"}

/-- A world whose POSTs answer HTTP 400 with body
`{ResponseMessage: "Invalid Amount"}`. -/
def w400 : World :=
  { tokenResult := tokenOkOutcome
    postResult := fun _ _ => .http 400 (some [("ResponseMessage", .jstr "Invalid Amount")])
    nowMillis1 := 1700000000000
    nowMillis2 := 1700000000001
    rand1 := "abc123def"
    rand2 := "ghi456jkl"}

/-- C3: a falsy phone input maps to `null`; otherwise a 9-character
rendering gains the `254` prefix, a 10-character rendering loses its
first character and gains the `254` prefix, and every other length is
returned unchanged. -/
theorem claim_C3 (p : PhoneInput) :
    (p.jsFalsy = true → formatPhoneNumber p = none) ∧
    (p.jsFalsy = false →
      ((p.toStr.length = 9 → formatPhoneNumber p = some ("254" ++ p.toStr)) ∧
       (p.toStr.length = 10 → formatPhoneNumber p = some ("254" ++ p.toStr.drop 1)) ∧
       (p.toStr.length ≠ 9 → p.toStr.length ≠ 10 → formatPhoneNumber p = some p.toStr))) := by
  constructor
  · intro h
    simp [formatPhoneNumber, h]
  · intro h
    refine ⟨fun h9 => ?_, fun h10 => ?_, fun h9 h10 => ?_⟩
    · simp [formatPhoneNumber, h, h9]
    · simp [formatPhoneNumber, h, h10]
    · simp [formatPhoneNumber, h, h9, h10]

/-- Witness for C3 at `0712345678`, `712345678`, `254712345678` and `0`. -/
theorem claim_C3_witness :
    formatPhoneNumber (.str "0712345678") = some ("254" ++ ("0712345678".drop 1)) ∧
    formatPhoneNumber (.str "712345678") = some ("254" ++ "712345678") ∧
    formatPhoneNumber (.str "254712345678") = some "254712345678" ∧
    formatPhoneNumber (.num 0) = none :=
  ⟨((claim_C3 (.str "0712345678")).2 (by decide)).2.1 (by decide),
   ((claim_C3 (.str "712345678")).2 (by decide)).1 (by decide),
   ((claim_C3 (.str "254712345678")).2 (by decide)).2.2 (by decide) (by decide),
   (claim_C3 (.num 0)).1 (by decide)⟩

/-- C4: a successfully constructed client's derived shortcode password
is the base64 of the byte-concatenation of business shortcode, pass key
and the construction-time timestamp. -/
theorem claim_C4 (config : MpesaConfig) (ts sec : String) (m : Mpesa)
    (h : mkMpesa config ts sec = .ok m) :
    m.timeStamp = ts ∧
    m.shortCodePassword =
      base64Encode (strBytes m.businessShortCode ++ strBytes m.passKey ++ strBytes ts) := by
  have hm : m = buildMpesa config ts sec := by
    unfold mkMpesa at h
    cases hv : validateConfig config <;> rw [hv] at h <;> simp_all
  subst hm
  refine ⟨rfl, ?_⟩
  have hpw : (buildMpesa config ts sec).shortCodePassword =
      generatePassword (buildMpesa config ts sec).businessShortCode
        (buildMpesa config ts sec).passKey ts := rfl
  rw [hpw, generatePassword, strBytes_append, strBytes_append]

/-- Witness for C4: the concrete client built from `cfgA`. -/
theorem claim_C4_witness :
    mA.timeStamp = tsA ∧
    mA.shortCodePassword =
      base64Encode (strBytes mA.businessShortCode ++ strBytes mA.passKey ++ strBytes tsA) :=
  claim_C4 cfgA tsA "seccred" mA rfl

/-- Definition following the spec's words (§4.1 of spec.md): every
required field — env, credentials, appInfo, businessShortCode,
shortCodeType, requester; passKey, initiatorPass, initiatorName;
consumerKey, consumerSecret — is present (truthy). -/
def specRequiredFieldsPresent (config : MpesaConfig) : Bool :=
  match config.credentials, config.appInfo with
  | some cred, some app =>
      !ofalsy config.env && !ofalsy config.businessShortCode &&
      !ofalsy config.shortCodeType && !ofalsy config.requester &&
      !ofalsy cred.passKey && !ofalsy cred.initiatorPass && !ofalsy cred.initiatorName &&
      !ofalsy app.consumerKey && !ofalsy app.consumerSecret
  | _, _ => false

/-- Error messages naming each absent required field of a
configuration, in validation order. -/
def missingFieldMsgs (config : MpesaConfig) : List String :=
  (if ofalsy config.env then [cfgMsg "env"] else []) ++
  (if config.credentials.isNone then [cfgMsg "credentials"] else []) ++
  (if config.appInfo.isNone then [cfgMsg "appInfo"] else []) ++
  (if ofalsy config.businessShortCode then [cfgMsg "businessShortCode"] else []) ++
  (if ofalsy config.shortCodeType then [cfgMsg "shortCodeType"] else []) ++
  (if ofalsy config.requester then [cfgMsg "requester"] else []) ++
  (match config.credentials with
   | some cred =>
      (if ofalsy cred.passKey then [credMsg "passKey"] else []) ++
      (if ofalsy cred.initiatorPass then [credMsg "initiatorPass"] else []) ++
      (if ofalsy cred.initiatorName then [credMsg "initiatorName"] else [])
   | none => []) ++
  (match config.appInfo with
   | some app =>
      (if ofalsy app.consumerKey then [appMsg "consumerKey"] else []) ++
      (if ofalsy app.consumerSecret then [appMsg "consumerSecret"] else [])
   | none => [])

/-- C2: construction succeeds exactly when every required field of
spec §4.1 is present (truthy under the source's `!config[key]` test),
and a construction error's message names a missing required field. -/
theorem validateConfig_ok_iff (config : MpesaConfig) :
    validateConfig config = .ok () ↔ specRequiredFieldsPresent config = true := by
  obtain ⟨env, req, sct, bsc, creds, app⟩ := config
  cases creds <;> cases app <;>
    simp only [validateConfig, specRequiredFieldsPresent] <;>
    split_ifs <;> simp_all

theorem validateConfig_error_mem (config : MpesaConfig) (e : String)
    (h : validateConfig config = .error e) : e ∈ missingFieldMsgs config := by
  obtain ⟨env, req, sct, bsc, creds, app⟩ := config
  cases creds <;> cases app <;>
    simp only [validateConfig] at h <;>
    split_ifs at h <;> simp_all [missingFieldMsgs]

theorem mkMpesa_ok_exists (config : MpesaConfig) (ts sec : String) :
    (∃ m, mkMpesa config ts sec = .ok m) ↔ validateConfig config = .ok () := by
  unfold mkMpesa
  cases hv : validateConfig config with
  | error e => simp
  | ok u => cases u; simp

theorem mkMpesa_error_iff (config : MpesaConfig) (ts sec : String) (e : String) :
    mkMpesa config ts sec = .error e ↔ validateConfig config = .error e := by
  unfold mkMpesa
  cases hv : validateConfig config with
  | error x => simp
  | ok u => cases u; simp

theorem claim_C2 :
    (∀ config ts sec, (∃ m, mkMpesa config ts sec = .ok m) ↔
        specRequiredFieldsPresent config = true) ∧
    (∀ config ts sec e, mkMpesa config ts sec = .error e → e ∈ missingFieldMsgs config) := by
  constructor
  · intro config ts sec
    rw [mkMpesa_ok_exists, validateConfig_ok_iff]
  · intro config ts sec e h
    exact validateConfig_error_mem config e ((mkMpesa_error_iff config ts sec e).mp h)

/-- Witness for C2: `cfgNoEnv` is rejected with a message naming `env`,
and `cfgA` constructs. -/
theorem claim_C2_witness :
    cfgMsg "env" ∈ missingFieldMsgs cfgNoEnv ∧ specRequiredFieldsPresent cfgA = true :=
  ⟨claim_C2.2 cfgNoEnv tsA "seccred" (cfgMsg "env") rfl,
   (claim_C2.1 cfgA tsA "seccred").mp ⟨buildMpesa cfgA tsA "seccred", rfl⟩⟩

/-- Inversion for successful construction. -/
theorem mkMpesa_ok_build (config : MpesaConfig) (ts sec : String) (m : Mpesa)
    (h : mkMpesa config ts sec = .ok m) : m = buildMpesa config ts sec := by
  unfold mkMpesa at h
  cases hv : validateConfig config <;> rw [hv] at h <;> simp_all

/-- C5: `queryOrgInfo` with type `till` dispatches a payload whose
`IdentifierType` is 2, with `paybill` one whose `IdentifierType` is 4,
and with any other type value fails with the unsupported-type error and
performs no network call. -/
theorem claim_C5 (c : Mpesa) (w : World) (tok sc t : String)
    (htok : generateAccessToken w = .ok tok)
    (ht1 : t ≠ "till") (ht2 : t ≠ "paybill") :
    (c.queryOrgInfo w "till" sc).2 =
      [.tokenFetch, .post "sfcverify/v1/query/info" (queryOrgInfoPayload 2 sc)] ∧
    getField (queryOrgInfoPayload 2 sc) "IdentifierType" = some (.jnum 2) ∧
    (c.queryOrgInfo w "paybill" sc).2 =
      [.tokenFetch, .post "sfcverify/v1/query/info" (queryOrgInfoPayload 4 sc)] ∧
    getField (queryOrgInfoPayload 4 sc) "IdentifierType" = some (.jnum 4) ∧
    c.queryOrgInfo w t sc = (.error "Identifier type is not supported", []) := by
  have h2 : c.queryOrgInfo w "till" sc =
      dispatch true w "sfcverify/v1/query/info" (queryOrgInfoPayload 2 sc) := by
    simp [Mpesa.queryOrgInfo]
  have h4 : c.queryOrgInfo w "paybill" sc =
      dispatch true w "sfcverify/v1/query/info" (queryOrgInfoPayload 4 sc) := by
    simp [Mpesa.queryOrgInfo]
  refine ⟨?_, rfl, ?_, rfl, ?_⟩
  · rw [h2]; exact dispatch_events true w _ _ tok htok
  · rw [h4]; exact dispatch_events true w _ _ tok htok
  · simp [Mpesa.queryOrgInfo, ht1, ht2]

/-- Witness for C5 at the concrete client and a healthy world, with the
unsupported type `kiosk`. -/
theorem claim_C5_witness :
    (mA.queryOrgInfo wOk "till" "174379").2 =
      [.tokenFetch, .post "sfcverify/v1/query/info" (queryOrgInfoPayload 2 "174379")] ∧
    getField (queryOrgInfoPayload 2 "174379") "IdentifierType" = some (.jnum 2) ∧
    (mA.queryOrgInfo wOk "paybill" "174379").2 =
      [.tokenFetch, .post "sfcverify/v1/query/info" (queryOrgInfoPayload 4 "174379")] ∧
    getField (queryOrgInfoPayload 4 "174379") "IdentifierType" = some (.jnum 4) ∧
    mA.queryOrgInfo wOk "kiosk" "174379" = (.error "Identifier type is not supported", []) :=
  claim_C5 mA wOk "tok" "174379" "kiosk" rfl (by decide) (by decide)

/-- C10: `registerUrl` performs no validation of `responseType`: with
truthy confirmation and validation URLs and an arbitrary (possibly
empty) `responseType`, no guard fires — the call goes straight to the
dispatcher — and the dispatched payload carries `ResponseType` exactly
as given. -/
theorem claim_C10 (c : Mpesa) (w : World) (tok rt cu vu : String)
    (hcu : cu.isEmpty = false) (hvu : vu.isEmpty = false)
    (htok : generateAccessToken w = .ok tok) :
    c.registerUrl w rt cu vu =
      dispatch true w "mpesa/c2b/v2/registerurl" (registerUrlPayload c rt cu vu) ∧
    (c.registerUrl w rt cu vu).2 =
      [.tokenFetch, .post "mpesa/c2b/v2/registerurl" (registerUrlPayload c rt cu vu)] ∧
    getField (registerUrlPayload c rt cu vu) "ResponseType" = some (.jstr rt) := by
  have hd : c.registerUrl w rt cu vu =
      dispatch true w "mpesa/c2b/v2/registerurl" (registerUrlPayload c rt cu vu) := by
    simp [Mpesa.registerUrl, hcu, hvu]
  exact ⟨hd, by rw [hd]; exact dispatch_events true w _ _ tok htok, rfl⟩

/-- Witness for C10: empty `responseType`, truthy URLs. -/
theorem claim_C10_witness :
    mA.registerUrl wOk "" "https://example.com/confirm" "https://example.com/validate" =
      dispatch true wOk "mpesa/c2b/v2/registerurl"
        (registerUrlPayload mA "" "https://example.com/confirm" "https://example.com/validate") ∧
    (mA.registerUrl wOk "" "https://example.com/confirm" "https://example.com/validate").2 =
      [.tokenFetch, .post "mpesa/c2b/v2/registerurl"
        (registerUrlPayload mA "" "https://example.com/confirm" "https://example.com/validate")] ∧
    getField (registerUrlPayload mA "" "https://example.com/confirm" "https://example.com/validate")
      "ResponseType" = some (.jstr "") :=
  claim_C10 mA wOk "tok" "" "https://example.com/confirm" "https://example.com/validate"
    rfl rfl rfl

/-- C9: configuration and derived secrets are fixed at construction —
the embedding makes the client a value whose readonly fields no
operation can write — and the `Timestamp` and `Password` payload fields
of `stkPush`, `stkPushQuery` and `mpesaRatiba` are exactly the
construction-time timestamp and the password derived from it, with no
per-call refresh. -/
theorem claim_C9 (config : MpesaConfig) (ts sec : String) (m : Mpesa)
    (amount : Int) (pn : PhoneInput) (acct cb d code ar sd ed son f : String)
    (h : mkMpesa config ts sec = .ok m) :
    m.timeStamp = ts ∧
    m.shortCodePassword = generatePassword m.businessShortCode m.passKey ts ∧
    getField (stkPushPayload m amount pn acct cb d) "Timestamp" = some (.jstr ts) ∧
    getField (stkPushPayload m amount pn acct cb d) "Password" =
      some (.jstr m.shortCodePassword) ∧
    getField (stkPushQueryPayload m code) "Timestamp" = some (.jstr ts) ∧
    getField (stkPushQueryPayload m code) "Password" = some (.jstr m.shortCodePassword) ∧
    getField (ratibaPayload m amount pn ar sd ed son cb f) "Timestamp" = some (.jstr ts) ∧
    getField (ratibaPayload m amount pn ar sd ed son cb f) "Password" =
      some (.jstr m.shortCodePassword) := by
  have hm : m = buildMpesa config ts sec := mkMpesa_ok_build config ts sec m h
  subst hm
  exact ⟨rfl, rfl, rfl, rfl, rfl, rfl, rfl, rfl⟩

/-- Witness for C9 at the concrete client. -/
theorem claim_C9_witness :
    mA.timeStamp = tsA ∧
    mA.shortCodePassword = generatePassword mA.businessShortCode mA.passKey tsA ∧
    getField (stkPushPayload mA 100 (.str "0712345678") "acc" "https://cb" "d") "Timestamp" =
      some (.jstr tsA) ∧
    getField (stkPushPayload mA 100 (.str "0712345678") "acc" "https://cb" "d") "Password" =
      some (.jstr mA.shortCodePassword) ∧
    getField (stkPushQueryPayload mA "ws_CO_1") "Timestamp" = some (.jstr tsA) ∧
    getField (stkPushQueryPayload mA "ws_CO_1") "Password" = some (.jstr mA.shortCodePassword) ∧
    getField (ratibaPayload mA 100 (.str "0712345678") "ref" "20240102" "20250102" "order"
      "https://cb" "2") "Timestamp" = some (.jstr tsA) ∧
    getField (ratibaPayload mA 100 (.str "0712345678") "ref" "20240102" "20250102" "order"
      "https://cb" "2") "Password" = some (.jstr mA.shortCodePassword) :=
  claim_C9 cfgA tsA "seccred" mA 100 (.str "0712345678") "acc" "https://cb" "d" "ws_CO_1"
    "ref" "20240102" "20250102" "order" "2" rfl

/-! Reduction of each public method to the shared dispatcher once its
argument guards pass. -/

theorem stkPush_dispatch (c : Mpesa) (w : World) (amount : Int) (pn : PhoneInput)
    (acct cb d : String) (hpn : pn.jsFalsy = false) (ha : amount ≠ 0)
    (hacct : acct.isEmpty = false) (hcb : cb.isEmpty = false) :
    c.stkPush w amount pn acct cb d =
      dispatch true w "mpesa/stkpush/v1/processrequest"
        (stkPushPayload c amount pn acct cb d) := by
  simp [Mpesa.stkPush, hpn, ha, hacct, hcb]

theorem queryOrgInfo_till_dispatch (c : Mpesa) (w : World) (sc : String) :
    c.queryOrgInfo w "till" sc =
      dispatch true w "sfcverify/v1/query/info" (queryOrgInfoPayload 2 sc) := by
  simp [Mpesa.queryOrgInfo]

theorem queryOrgInfo_paybill_dispatch (c : Mpesa) (w : World) (sc : String) :
    c.queryOrgInfo w "paybill" sc =
      dispatch true w "sfcverify/v1/query/info" (queryOrgInfoPayload 4 sc) := by
  simp [Mpesa.queryOrgInfo]

theorem stkPushQuery_dispatch (c : Mpesa) (w : World) (code : String)
    (h : code.isEmpty = false) :
    c.stkPushQuery w code =
      dispatch true w "mpesa/stkpushquery/v1/query" (stkPushQueryPayload c code) := by
  simp [Mpesa.stkPushQuery, h]

theorem registerUrl_dispatch (c : Mpesa) (w : World) (rt cu vu : String)
    (hcu : cu.isEmpty = false) (hvu : vu.isEmpty = false) :
    c.registerUrl w rt cu vu =
      dispatch true w "mpesa/c2b/v2/registerurl" (registerUrlPayload c rt cu vu) := by
  simp [Mpesa.registerUrl, hcu, hvu]

theorem initiateB2C_dispatch (c : Mpesa) (w : World) (amount : Int) (pn : PhoneInput)
    (cid ru qtu rem : String) (ha : amount ≠ 0) (hpn : pn.jsFalsy = false)
    (hru : ru.isEmpty = false) :
    c.initiateB2C w amount pn cid ru qtu rem =
      dispatch true w "mpesa/b2c/v1/paymentrequest"
        (b2cPayload c amount pn cid ru qtu rem) := by
  simp [Mpesa.initiateB2C, ha, hpn, hru]

theorem transactionStatus_dispatch (c : Mpesa) (w : World) (tid ru qtu : String)
    (htid : tid.isEmpty = false) (hru : ru.isEmpty = false) :
    c.transactionStatus w tid ru qtu =
      dispatch true w "mpesa/transactionstatus/v1/query"
        (transactionStatusPayload c tid ru qtu) := by
  simp [Mpesa.transactionStatus, htid, hru]

theorem accountBalance_dispatch (c : Mpesa) (w : World) (ru qtu : String)
    (hru : ru.isEmpty = false) :
    c.accountBalance w ru qtu =
      dispatch true w "mpesa/accountbalance/v1/query" (accountBalancePayload c ru qtu) := by
  simp [Mpesa.accountBalance, hru]

theorem reverseTransaction_dispatch (c : Mpesa) (w : World) (amount : Int)
    (tid ru qtu : String) (htid : tid.isEmpty = false) (ha : amount ≠ 0)
    (hru : ru.isEmpty = false) :
    c.reverseTransaction w amount tid ru qtu =
      dispatch true w "mpesa/reversal/v1/request"
        (reversalPayload c amount tid ru qtu) := by
  simp [Mpesa.reverseTransaction, htid, ha, hru]

theorem taxRemittance_dispatch (c : Mpesa) (w : World) (amount : Int)
    (prn ru qtu : String) (hprn : prn.isEmpty = false) (ha : amount ≠ 0)
    (hru : ru.isEmpty = false) :
    c.taxRemittance w amount prn ru qtu =
      dispatch true w "mpesa/b2b/v1/remittax" (taxPayload c amount prn ru qtu) := by
  simp [Mpesa.taxRemittance, hprn, ha, hru]

theorem initiateB2B_dispatch (c : Mpesa) (w : World) (amount : Int)
    (pt sc an ru qtu : String) (hsc : sc.isEmpty = false) (ha : amount ≠ 0)
    (hru : ru.isEmpty = false) :
    c.initiateB2B w amount pt sc an ru qtu =
      dispatch true w "mpesa/b2b/v1/paymentrequest"
        (b2bPayload c amount pt sc an ru qtu) := by
  simp [Mpesa.initiateB2B, hsc, ha, hru]

theorem initiateB2BExpressCheckout_dispatch (c : Mpesa) (w : World) (amount : Int)
    (rsc cb partner payRef reqRef : String) (ha : amount ≠ 0)
    (hrsc : rsc.isEmpty = false) (hpartner : partner.isEmpty = false)
    (hcb : cb.isEmpty = false) :
    c.initiateB2BExpressCheckout w amount rsc cb partner payRef reqRef =
      dispatch false w "v1/ussdpush/get-msisdn"
        (b2bExpressPayload c w amount rsc cb partner payRef reqRef) := by
  simp [Mpesa.initiateB2BExpressCheckout, ha, hrsc, hpartner, hcb]

theorem mpesaRatiba_dispatch (c : Mpesa) (w : World) (amount : Int) (pn : PhoneInput)
    (ar sd ed son cb f : String) (ha : amount ≠ 0) (hpn : pn.jsFalsy = false)
    (har : ar.isEmpty = false) (hcb : cb.isEmpty = false) (hsd : sd.isEmpty = false)
    (hed : ed.isEmpty = false) (hson : son.isEmpty = false) :
    c.mpesaRatiba w amount pn ar sd ed son cb f =
      dispatch false w "mpesa/standingorders/v1/create"
        (ratibaPayload c amount pn ar sd ed son cb f) := by
  simp [Mpesa.mpesaRatiba, ha, hpn, har, hcb, hsd, hed, hson]

/-- Entire prefix of the wrapped token-error messages. -/
def authPrefix : String := "Failed to generate access token: "

/-- Taking the length of the left part of an append recovers it. -/
theorem take_length_append {α : Type} (l1 l2 : List α) :
    (l1 ++ l2).take l1.length = l1 := by
  induction l1 <;> simp_all

/-- Every wrapped message starts with the authentication prefix. -/
theorem authWrap_take (m : String) :
    (authWrap m).data.take authPrefix.data.length = authPrefix.data := by
  show (authPrefix ++ m).data.take authPrefix.data.length = authPrefix.data
  rw [String.data_append]
  exact take_length_append _ _

/-- Any token-fetch failure produces a message carrying the
authentication prefix. -/
theorem generateAccessTokenErrorShape (w : World) (e : String)
    (h : generateAccessToken w = .error e) :
    e.data.take authPrefix.data.length = authPrefix.data := by
  unfold generateAccessToken at h
  cases hax : axiosCall w.tokenResult with
  | resolved st data =>
      rw [hax] at h
      dsimp only at h
      cases hb : data.bind (fun b => getField b "access_token") with
      | none =>
          rw [hb] at h
          dsimp only at h
          simp only [Except.error.injEq] at h
          rw [← h]
          exact authWrap_take _
      | some v =>
          rw [hb] at h
          dsimp only at h
          split_ifs at h with hv
          simp only [Except.error.injEq] at h
          rw [← h]
          exact authWrap_take _
  | rejected m rd =>
      rw [hax] at h
      dsimp only at h
      simp only [Except.error.injEq] at h
      rw [← h]
      exact authWrap_take m

/-- `getBusinessName` under a failed token fetch, for a client whose
shortcode type is valid. -/
theorem getBusinessName_token_fail (c : Mpesa) (w : World) (e : String)
    (hsct : c.shortCodeType = "till" ∨ c.shortCodeType = "paybill")
    (htok : generateAccessToken w = .error e) :
    c.getBusinessName w = (.error e, [.tokenFetch]) := by
  rcases hsct with h | h <;>
    simp [Mpesa.getBusinessName, h, queryOrgInfo_till_dispatch,
      queryOrgInfo_paybill_dispatch, dispatch_token_fail true w _ _ e htok]

/-- C7: whenever the token fetch fails — network error, non-2xx status,
or a response without `access_token` — its message carries the
`Failed to generate access token: ` prefix with the underlying message
appended, and every business operation invoked with valid arguments
fails with exactly that error after the lone token-fetch event, the
business POST never being sent. -/
theorem claim_C7 (c : Mpesa) (w : World) (e : String) (amount : Int) (pn : PhoneInput)
    (sA sB sC sD sE sF u : String) (st : Nat) (b : Option Body)
    (pr : String → Body → HttpOutcome) (n1 n2 : Nat) (r1 r2 : String)
    (ha : amount ≠ 0) (hpn : pn.jsFalsy = false)
    (hA : sA.isEmpty = false) (hB : sB.isEmpty = false) (hD : sD.isEmpty = false)
    (hE : sE.isEmpty = false) (hF : sF.isEmpty = false)
    (hsct : c.shortCodeType = "till" ∨ c.shortCodeType = "paybill")
    (htok : generateAccessToken w = .error e)
    (hst : ¬(200 ≤ st ∧ st < 300)) :
    e.data.take authPrefix.data.length = authPrefix.data ∧
    generateAccessToken ⟨.netError u, pr, n1, n2, r1, r2⟩ = .error (authWrap u) ∧
    generateAccessToken ⟨.http st b, pr, n1, n2, r1, r2⟩ =
      .error (authWrap ("Request failed with status code " ++ toString st)) ∧
    generateAccessToken ⟨.http 200 none, pr, n1, n2, r1, r2⟩ =
      .error (authWrap "Failed to generate access token") ∧
    c.stkPush w amount pn sA sB sC = (.error e, [.tokenFetch]) ∧
    c.queryOrgInfo w "till" sA = (.error e, [.tokenFetch]) ∧
    c.queryOrgInfo w "paybill" sA = (.error e, [.tokenFetch]) ∧
    c.getBusinessName w = (.error e, [.tokenFetch]) ∧
    c.generateQRCode w amount sA amount = (.error e, [.tokenFetch]) ∧
    c.stkPushQuery w sA = (.error e, [.tokenFetch]) ∧
    c.registerUrl w sC sA sB = (.error e, [.tokenFetch]) ∧
    c.initiateB2C w amount pn sC sA sB sC = (.error e, [.tokenFetch]) ∧
    c.transactionStatus w sA sB sC = (.error e, [.tokenFetch]) ∧
    c.accountBalance w sA sB = (.error e, [.tokenFetch]) ∧
    c.reverseTransaction w amount sA sB sC = (.error e, [.tokenFetch]) ∧
    c.taxRemittance w amount sA sB sC = (.error e, [.tokenFetch]) ∧
    c.initiateB2B w amount sC sA sC sB sC = (.error e, [.tokenFetch]) ∧
    c.initiateB2BExpressCheckout w amount sA sB sD sC sC = (.error e, [.tokenFetch]) ∧
    c.mpesaRatiba w amount pn sA sD sE sF sB sC = (.error e, [.tokenFetch]) := by
  refine ⟨generateAccessTokenErrorShape w e htok, rfl, ?_, rfl,
    ?_, ?_, ?_, getBusinessName_token_fail c w e hsct htok, ?_, ?_, ?_, ?_, ?_, ?_,
    ?_, ?_, ?_, ?_, ?_⟩
  · simp [generateAccessToken, axiosCall, hst]
  · rw [stkPush_dispatch c w amount pn sA sB sC hpn ha hA hB]
    exact dispatch_token_fail _ _ _ _ e htok
  · rw [queryOrgInfo_till_dispatch]
    exact dispatch_token_fail _ _ _ _ e htok
  · rw [queryOrgInfo_paybill_dispatch]
    exact dispatch_token_fail _ _ _ _ e htok
  · simp [Mpesa.generateQRCode, ha, getBusinessName_token_fail c w e hsct htok]
  · rw [stkPushQuery_dispatch c w sA hA]
    exact dispatch_token_fail _ _ _ _ e htok
  · rw [registerUrl_dispatch c w sC sA sB hA hB]
    exact dispatch_token_fail _ _ _ _ e htok
  · rw [initiateB2C_dispatch c w amount pn sC sA sB sC ha hpn hA]
    exact dispatch_token_fail _ _ _ _ e htok
  · rw [transactionStatus_dispatch c w sA sB sC hA hB]
    exact dispatch_token_fail _ _ _ _ e htok
  · rw [accountBalance_dispatch c w sA sB hA]
    exact dispatch_token_fail _ _ _ _ e htok
  · rw [reverseTransaction_dispatch c w amount sA sB sC hA ha hB]
    exact dispatch_token_fail _ _ _ _ e htok
  · rw [taxRemittance_dispatch c w amount sA sB sC hA ha hB]
    exact dispatch_token_fail _ _ _ _ e htok
  · rw [initiateB2B_dispatch c w amount sC sA sC sB sC hA ha hB]
    exact dispatch_token_fail _ _ _ _ e htok
  · rw [initiateB2BExpressCheckout_dispatch c w amount sA sB sD sC sC ha hA hD hB]
    exact dispatch_token_fail _ _ _ _ e htok
  · rw [mpesaRatiba_dispatch c w amount pn sA sD sE sF sB sC ha hpn hA hB hD hE hF]
    exact dispatch_token_fail _ _ _ _ e htok

/-- Error message of the failed token fetch in `wTokFail`. -/
def eW : String := authWrap "getaddrinfo ENOTFOUND sandbox.safaricom.co.ke"

/-- Witness for C7: under `wTokFail`, `stkPush` with valid arguments
fails with the wrapped network-error message and only the token event,
and that message carries the authentication prefix. -/
theorem claim_C7_witness :
    (eW.data.take authPrefix.data.length = authPrefix.data) ∧
    mA.stkPush wTokFail 100 (.str "0712345678") "acc" "https://cb" "desc" =
      (.error eW, [.tokenFetch]) :=
  have h := claim_C7 mA wTokFail eW 100 (.str "0712345678") "acc" "https://cb" "desc"
    "d" "e" "f" "boom" 500 none (fun _ _ => .netError "x") 0 0 "r" "r"
    (by decide) rfl rfl rfl rfl rfl rfl (Or.inr rfl) rfl (by decide)
  ⟨h.1, h.2.2.2.2.1⟩

/-- `getBusinessName` when the org-info dispatch succeeds for a
paybill-typed client. -/
theorem getBusinessName_paybill_200 (c : Mpesa) (w : World) (tok : String) (orgBody : Body)
    (hsct : c.shortCodeType = "paybill")
    (htok : generateAccessToken w = .ok tok)
    (hpost : w.postResult "sfcverify/v1/query/info"
      (queryOrgInfoPayload 4 c.businessShortCode) = .http 200 (some orgBody)) :
    c.getBusinessName w =
      (.ok ((getField orgBody "OrganizationName").getD .jundefined),
       [.tokenFetch,
        .post "sfcverify/v1/query/info" (queryOrgInfoPayload 4 c.businessShortCode)]) := by
  simp [Mpesa.getBusinessName, hsct, queryOrgInfo_paybill_dispatch,
    dispatch_200 true w _ _ tok orgBody htok hpost]


/-- C8: with a healthy token fetch, every business operation given an
HTTP 200 response with a present body returns exactly that body
(identity of the success path), and given an HTTP 200 response with an
empty body fails with `No response received`; the events show the
dispatched payloads. -/
theorem claim_C8 (c : Mpesa) (w : World) (tok : String) (body orgBody : Body)
    (amount : Int) (pn : PhoneInput) (sA sB sC sD sE sF : String)
    (ha : amount ≠ 0) (hpn : pn.jsFalsy = false)
    (hA : sA.isEmpty = false) (hB : sB.isEmpty = false) (hD : sD.isEmpty = false)
    (hE : sE.isEmpty = false) (hF : sF.isEmpty = false)
    (hsct4 : c.shortCodeType = "paybill")
    (htok : generateAccessToken w = .ok tok) :
    (w.postResult "mpesa/stkpush/v1/processrequest"
        (stkPushPayload c amount pn sA sB sC) = .http 200 (some body) →
      c.stkPush w amount pn sA sB sC = (.ok body,
        [.tokenFetch, .post "mpesa/stkpush/v1/processrequest"
          (stkPushPayload c amount pn sA sB sC)])) ∧
    (w.postResult "sfcverify/v1/query/info" (queryOrgInfoPayload 2 sA) =
        .http 200 (some body) →
      c.queryOrgInfo w "till" sA = (.ok body,
        [.tokenFetch, .post "sfcverify/v1/query/info" (queryOrgInfoPayload 2 sA)])) ∧
    (w.postResult "sfcverify/v1/query/info" (queryOrgInfoPayload 4 c.businessShortCode) =
        .http 200 (some orgBody) →
      w.postResult "mpesa/qrcode/v1/generate"
        (qrCodePayload c ((getField orgBody "OrganizationName").getD .jundefined)
          amount sA amount) = .http 200 (some body) →
      c.generateQRCode w amount sA amount = (.ok body,
        [.tokenFetch, .post "sfcverify/v1/query/info"
          (queryOrgInfoPayload 4 c.businessShortCode),
         .tokenFetch, .post "mpesa/qrcode/v1/generate"
          (qrCodePayload c ((getField orgBody "OrganizationName").getD .jundefined)
            amount sA amount)])) ∧
    (w.postResult "mpesa/stkpushquery/v1/query" (stkPushQueryPayload c sA) =
        .http 200 (some body) →
      c.stkPushQuery w sA = (.ok body,
        [.tokenFetch, .post "mpesa/stkpushquery/v1/query" (stkPushQueryPayload c sA)])) ∧
    (w.postResult "mpesa/c2b/v2/registerurl" (registerUrlPayload c sC sA sB) =
        .http 200 (some body) →
      c.registerUrl w sC sA sB = (.ok body,
        [.tokenFetch, .post "mpesa/c2b/v2/registerurl" (registerUrlPayload c sC sA sB)])) ∧
    (w.postResult "mpesa/b2c/v1/paymentrequest" (b2cPayload c amount pn sC sA sB sC) =
        .http 200 (some body) →
      c.initiateB2C w amount pn sC sA sB sC = (.ok body,
        [.tokenFetch, .post "mpesa/b2c/v1/paymentrequest"
          (b2cPayload c amount pn sC sA sB sC)])) ∧
    (w.postResult "mpesa/transactionstatus/v1/query"
        (transactionStatusPayload c sA sB sC) = .http 200 (some body) →
      c.transactionStatus w sA sB sC = (.ok body,
        [.tokenFetch, .post "mpesa/transactionstatus/v1/query"
          (transactionStatusPayload c sA sB sC)])) ∧
    (w.postResult "mpesa/accountbalance/v1/query" (accountBalancePayload c sA sB) =
        .http 200 (some body) →
      c.accountBalance w sA sB = (.ok body,
        [.tokenFetch, .post "mpesa/accountbalance/v1/query"
          (accountBalancePayload c sA sB)])) ∧
    (w.postResult "mpesa/reversal/v1/request" (reversalPayload c amount sA sB sC) =
        .http 200 (some body) →
      c.reverseTransaction w amount sA sB sC = (.ok body,
        [.tokenFetch, .post "mpesa/reversal/v1/request"
          (reversalPayload c amount sA sB sC)])) ∧
    (w.postResult "mpesa/b2b/v1/remittax" (taxPayload c amount sA sB sC) =
        .http 200 (some body) →
      c.taxRemittance w amount sA sB sC = (.ok body,
        [.tokenFetch, .post "mpesa/b2b/v1/remittax" (taxPayload c amount sA sB sC)])) ∧
    (w.postResult "mpesa/b2b/v1/paymentrequest" (b2bPayload c amount sC sA sC sB sC) =
        .http 200 (some body) →
      c.initiateB2B w amount sC sA sC sB sC = (.ok body,
        [.tokenFetch, .post "mpesa/b2b/v1/paymentrequest"
          (b2bPayload c amount sC sA sC sB sC)])) ∧
    (w.postResult "v1/ussdpush/get-msisdn"
        (b2bExpressPayload c w amount sA sB sD sC sC) = .http 200 (some body) →
      c.initiateB2BExpressCheckout w amount sA sB sD sC sC = (.ok body,
        [.tokenFetch, .post "v1/ussdpush/get-msisdn"
          (b2bExpressPayload c w amount sA sB sD sC sC)])) ∧
    (w.postResult "mpesa/standingorders/v1/create"
        (ratibaPayload c amount pn sA sD sE sF sB sC) = .http 200 (some body) →
      c.mpesaRatiba w amount pn sA sD sE sF sB sC = (.ok body,
        [.tokenFetch, .post "mpesa/standingorders/v1/create"
          (ratibaPayload c amount pn sA sD sE sF sB sC)])) ∧
    (w.postResult "mpesa/stkpush/v1/processrequest"
        (stkPushPayload c amount pn sA sB sC) = .http 200 none →
      (c.stkPush w amount pn sA sB sC).1 = .error "No response received") ∧
    (w.postResult "sfcverify/v1/query/info" (queryOrgInfoPayload 2 sA) = .http 200 none →
      (c.queryOrgInfo w "till" sA).1 = .error "No response received") ∧
    (w.postResult "sfcverify/v1/query/info" (queryOrgInfoPayload 4 c.businessShortCode) =
        .http 200 (some orgBody) →
      w.postResult "mpesa/qrcode/v1/generate"
        (qrCodePayload c ((getField orgBody "OrganizationName").getD .jundefined)
          amount sA amount) = .http 200 none →
      (c.generateQRCode w amount sA amount).1 = .error "No response received") ∧
    (w.postResult "mpesa/stkpushquery/v1/query" (stkPushQueryPayload c sA) =
        .http 200 none →
      (c.stkPushQuery w sA).1 = .error "No response received") ∧
    (w.postResult "mpesa/c2b/v2/registerurl" (registerUrlPayload c sC sA sB) =
        .http 200 none →
      (c.registerUrl w sC sA sB).1 = .error "No response received") ∧
    (w.postResult "mpesa/b2c/v1/paymentrequest" (b2cPayload c amount pn sC sA sB sC) =
        .http 200 none →
      (c.initiateB2C w amount pn sC sA sB sC).1 = .error "No response received") ∧
    (w.postResult "mpesa/transactionstatus/v1/query"
        (transactionStatusPayload c sA sB sC) = .http 200 none →
      (c.transactionStatus w sA sB sC).1 = .error "No response received") ∧
    (w.postResult "mpesa/accountbalance/v1/query" (accountBalancePayload c sA sB) =
        .http 200 none →
      (c.accountBalance w sA sB).1 = .error "No response received") ∧
    (w.postResult "mpesa/reversal/v1/request" (reversalPayload c amount sA sB sC) =
        .http 200 none →
      (c.reverseTransaction w amount sA sB sC).1 = .error "No response received") ∧
    (w.postResult "mpesa/b2b/v1/remittax" (taxPayload c amount sA sB sC) =
        .http 200 none →
      (c.taxRemittance w amount sA sB sC).1 = .error "No response received") ∧
    (w.postResult "mpesa/b2b/v1/paymentrequest" (b2bPayload c amount sC sA sC sB sC) =
        .http 200 none →
      (c.initiateB2B w amount sC sA sC sB sC).1 = .error "No response received") ∧
    (w.postResult "v1/ussdpush/get-msisdn"
        (b2bExpressPayload c w amount sA sB sD sC sC) = .http 200 none →
      (c.initiateB2BExpressCheckout w amount sA sB sD sC sC).1 =
        .error "No response received") ∧
    (w.postResult "mpesa/standingorders/v1/create"
        (ratibaPayload c amount pn sA sD sE sF sB sC) = .http 200 none →
      (c.mpesaRatiba w amount pn sA sD sE sF sB sC).1 = .error "No response received") := by
  refine ⟨?_, ?_, ?_, ?_, ?_, ?_, ?_, ?_, ?_, ?_, ?_, ?_, ?_,
    ?_, ?_, ?_, ?_, ?_, ?_, ?_, ?_, ?_, ?_, ?_, ?_, ?_⟩
  · intro hp
    rw [stkPush_dispatch c w amount pn sA sB sC hpn ha hA hB]
    exact dispatch_200 true w _ _ tok body htok hp
  · intro hp
    rw [queryOrgInfo_till_dispatch]
    exact dispatch_200 true w _ _ tok body htok hp
  · intro hpOrg hpQr
    have hbn := getBusinessName_paybill_200 c w tok orgBody hsct4 htok hpOrg
    simp [Mpesa.generateQRCode, ha, hbn, dispatch_200 true w _ _ tok body htok hpQr]
  · intro hp
    rw [stkPushQuery_dispatch c w sA hA]
    exact dispatch_200 true w _ _ tok body htok hp
  · intro hp
    rw [registerUrl_dispatch c w sC sA sB hA hB]
    exact dispatch_200 true w _ _ tok body htok hp
  · intro hp
    rw [initiateB2C_dispatch c w amount pn sC sA sB sC ha hpn hA]
    exact dispatch_200 true w _ _ tok body htok hp
  · intro hp
    rw [transactionStatus_dispatch c w sA sB sC hA hB]
    exact dispatch_200 true w _ _ tok body htok hp
  · intro hp
    rw [accountBalance_dispatch c w sA sB hA]
    exact dispatch_200 true w _ _ tok body htok hp
  · intro hp
    rw [reverseTransaction_dispatch c w amount sA sB sC hA ha hB]
    exact dispatch_200 true w _ _ tok body htok hp
  · intro hp
    rw [taxRemittance_dispatch c w amount sA sB sC hA ha hB]
    exact dispatch_200 true w _ _ tok body htok hp
  · intro hp
    rw [initiateB2B_dispatch c w amount sC sA sC sB sC hA ha hB]
    exact dispatch_200 true w _ _ tok body htok hp
  · intro hp
    rw [initiateB2BExpressCheckout_dispatch c w amount sA sB sD sC sC ha hA hD hB]
    exact dispatch_200 false w _ _ tok body htok hp
  · intro hp
    rw [mpesaRatiba_dispatch c w amount pn sA sD sE sF sB sC ha hpn hA hB hD hE hF]
    exact dispatch_200 false w _ _ tok body htok hp
  · intro hp
    rw [stkPush_dispatch c w amount pn sA sB sC hpn ha hA hB,
      dispatch_200_noBody true w _ _ tok htok hp]
  · intro hp
    rw [queryOrgInfo_till_dispatch, dispatch_200_noBody true w _ _ tok htok hp]
  · intro hpOrg hpQr
    have hbn := getBusinessName_paybill_200 c w tok orgBody hsct4 htok hpOrg
    simp [Mpesa.generateQRCode, ha, hbn, dispatch_200_noBody true w _ _ tok htok hpQr]
  · intro hp
    rw [stkPushQuery_dispatch c w sA hA, dispatch_200_noBody true w _ _ tok htok hp]
  · intro hp
    rw [registerUrl_dispatch c w sC sA sB hA hB,
      dispatch_200_noBody true w _ _ tok htok hp]
  · intro hp
    rw [initiateB2C_dispatch c w amount pn sC sA sB sC ha hpn hA,
      dispatch_200_noBody true w _ _ tok htok hp]
  · intro hp
    rw [transactionStatus_dispatch c w sA sB sC hA hB,
      dispatch_200_noBody true w _ _ tok htok hp]
  · intro hp
    rw [accountBalance_dispatch c w sA sB hA, dispatch_200_noBody true w _ _ tok htok hp]
  · intro hp
    rw [reverseTransaction_dispatch c w amount sA sB sC hA ha hB,
      dispatch_200_noBody true w _ _ tok htok hp]
  · intro hp
    rw [taxRemittance_dispatch c w amount sA sB sC hA ha hB,
      dispatch_200_noBody true w _ _ tok htok hp]
  · intro hp
    rw [initiateB2B_dispatch c w amount sC sA sC sB sC hA ha hB,
      dispatch_200_noBody true w _ _ tok htok hp]
  · intro hp
    rw [initiateB2BExpressCheckout_dispatch c w amount sA sB sD sC sC ha hA hD hB,
      dispatch_200_noBody false w _ _ tok htok hp]
  · intro hp
    rw [mpesaRatiba_dispatch c w amount pn sA sD sE sF sB sC ha hpn hA hB hD hE hF,
      dispatch_200_noBody false w _ _ tok htok hp]

/-- A world whose POSTs answer HTTP 200 with an empty body, except the
org-info query (used inside `generateQRCode`) which still answers with
a body. -/
def wNoBody : World :=
  { tokenResult := tokenOkOutcome
    postResult := fun ep d =>
      if ep = "sfcverify/v1/query/info" ∧ d = queryOrgInfoPayload 4 mA.businessShortCode
      then .http 200 (some bodyA) else .http 200 none
    nowMillis1 := 1700000000000
    nowMillis2 := 1700000000001
    rand1 := "abc123def"
    rand2 := "ghi456jkl"}

/-- Witness for C8: concrete 200-with-body and 200-without-body runs of
`stkPush`. -/
theorem claim_C8_witness :
    mA.stkPush wOk 100 (.str "0712345678") "acc" "https://cb" "c" = (.ok bodyA,
      [.tokenFetch, .post "mpesa/stkpush/v1/processrequest"
        (stkPushPayload mA 100 (.str "0712345678") "acc" "https://cb" "c")]) ∧
    (mA.stkPush wNoBody 100 (.str "0712345678") "acc" "https://cb" "c").1 =
      .error "No response received" :=
  ⟨(claim_C8 mA wOk "tok" bodyA bodyA 100 (.str "0712345678") "acc" "https://cb"
      "c" "d" "e" "f" (by decide) rfl rfl rfl rfl rfl rfl rfl rfl).1 rfl,
   ((claim_C8 mA wNoBody "tok" bodyA bodyA 100 (.str "0712345678") "acc" "https://cb"
      "c" "d" "e" "f" (by decide) rfl rfl rfl rfl rfl rfl rfl
      rfl).2.2.2.2.2.2.2.2.2.2.2.2.2.1 rfl)⟩

/-- Character suffix every required-field message ends with. -/
def reqSuffix : List Char := (" is required").data

/-- Recognizes an outcome that is a required-field validation failure
with an empty event trace: an error ending in ` is required` and no
network call. -/
def isReqFail (r : Except String Body × List NetEvent) : Bool :=
  match r with
  | (.error m, []) => m.data.reverse.take reqSuffix.length == reqSuffix.reverse
  | _ => false

/-- Introduction rule for `isReqFail`. -/
theorem isReqFail_of {r : Except String Body × List NetEvent} (m : String)
    (hr : r = (.error m, []))
    (hm : (m.data.reverse.take reqSuffix.length == reqSuffix.reverse) = true) :
    isReqFail r = true := by
  rw [hr]
  simpa [isReqFail] using hm

/-- C6: every business method given a missing (falsy) required argument
fails synchronously with a descriptive `... is required` error and
performs no network call at all — neither token fetch nor POST. -/
theorem claim_C6 (c : Mpesa) (w : World) (amount : Int) (pn : PhoneInput)
    (s1 s2 s3 s4 s5 s6 : String) :
    ((pn.jsFalsy = true ∨ amount = 0 ∨ s1.isEmpty = true ∨ s2.isEmpty = true) →
      isReqFail (c.stkPush w amount pn s1 s2 s3) = true) ∧
    (amount = 0 → isReqFail (c.generateQRCode w amount s1 amount) = true) ∧
    (s1.isEmpty = true → isReqFail (c.stkPushQuery w s1) = true) ∧
    ((s1.isEmpty = true ∨ s2.isEmpty = true) →
      isReqFail (c.registerUrl w s3 s1 s2) = true) ∧
    ((amount = 0 ∨ pn.jsFalsy = true ∨ s1.isEmpty = true) →
      isReqFail (c.initiateB2C w amount pn s3 s1 s2 s3) = true) ∧
    ((s1.isEmpty = true ∨ s2.isEmpty = true) →
      isReqFail (c.transactionStatus w s1 s2 s3) = true) ∧
    (s1.isEmpty = true → isReqFail (c.accountBalance w s1 s2) = true) ∧
    ((s1.isEmpty = true ∨ amount = 0 ∨ s2.isEmpty = true) →
      isReqFail (c.reverseTransaction w amount s1 s2 s3) = true) ∧
    ((s1.isEmpty = true ∨ amount = 0 ∨ s2.isEmpty = true) →
      isReqFail (c.taxRemittance w amount s1 s2 s3) = true) ∧
    ((s1.isEmpty = true ∨ amount = 0 ∨ s2.isEmpty = true) →
      isReqFail (c.initiateB2B w amount s3 s1 s4 s2 s3) = true) ∧
    ((amount = 0 ∨ s1.isEmpty = true ∨ s4.isEmpty = true ∨ s2.isEmpty = true) →
      isReqFail (c.initiateB2BExpressCheckout w amount s1 s2 s4 s3 s3) = true) ∧
    ((amount = 0 ∨ pn.jsFalsy = true ∨ s1.isEmpty = true ∨ s2.isEmpty = true ∨
        s4.isEmpty = true ∨ s5.isEmpty = true ∨ s6.isEmpty = true) →
      isReqFail (c.mpesaRatiba w amount pn s1 s4 s5 s6 s2 s3) = true) := by
  refine ⟨?_, ?_, ?_, ?_, ?_, ?_, ?_, ?_, ?_, ?_, ?_, ?_⟩
  · intro h
    by_cases h1 : pn.jsFalsy = true
    · exact isReqFail_of "Phone number is required" (by simp [Mpesa.stkPush, h1]) (by decide)
    by_cases h2 : amount = 0
    · exact isReqFail_of "Amount is required" (by simp [Mpesa.stkPush, h1, h2]) (by decide)
    by_cases h3 : s1.isEmpty = true
    · exact isReqFail_of "Account Number is required"
        (by simp [Mpesa.stkPush, h1, h2, h3]) (by decide)
    by_cases h4 : s2.isEmpty = true
    · exact isReqFail_of "Callback url is required"
        (by simp [Mpesa.stkPush, h1, h2, h3, h4]) (by decide)
    rcases h with h | h | h | h <;> simp_all
  · intro h2
    exact isReqFail_of "Amount is required" (by simp [Mpesa.generateQRCode, h2]) (by decide)
  · intro h1
    exact isReqFail_of "Checkout request code is required"
      (by simp [Mpesa.stkPushQuery, h1]) (by decide)
  · intro h
    by_cases h1 : s1.isEmpty = true
    · exact isReqFail_of "Confirmation url is required"
        (by simp [Mpesa.registerUrl, h1]) (by decide)
    by_cases h2 : s2.isEmpty = true
    · exact isReqFail_of "Validation url is required"
        (by simp [Mpesa.registerUrl, h1, h2]) (by decide)
    rcases h with h | h <;> simp_all
  · intro h
    by_cases h1 : amount = 0
    · exact isReqFail_of "Amount is required" (by simp [Mpesa.initiateB2C, h1]) (by decide)
    by_cases h2 : pn.jsFalsy = true
    · exact isReqFail_of "Phone number is required"
        (by simp [Mpesa.initiateB2C, h1, h2]) (by decide)
    by_cases h3 : s1.isEmpty = true
    · exact isReqFail_of "Result URL is required"
        (by simp [Mpesa.initiateB2C, h1, h2, h3]) (by decide)
    rcases h with h | h | h <;> simp_all
  · intro h
    by_cases h1 : s1.isEmpty = true
    · exact isReqFail_of "Transaction ID is required"
        (by simp [Mpesa.transactionStatus, h1]) (by decide)
    by_cases h2 : s2.isEmpty = true
    · exact isReqFail_of "Result Url is required"
        (by simp [Mpesa.transactionStatus, h1, h2]) (by decide)
    rcases h with h | h <;> simp_all
  · intro h1
    exact isReqFail_of "Result Url is required"
      (by simp [Mpesa.accountBalance, h1]) (by decide)
  · intro h
    by_cases h1 : s1.isEmpty = true
    · exact isReqFail_of "Transaction ID is required"
        (by simp [Mpesa.reverseTransaction, h1]) (by decide)
    by_cases h2 : amount = 0
    · exact isReqFail_of "Amount is required"
        (by simp [Mpesa.reverseTransaction, h1, h2]) (by decide)
    by_cases h3 : s2.isEmpty = true
    · exact isReqFail_of "Result Url is required"
        (by simp [Mpesa.reverseTransaction, h1, h2, h3]) (by decide)
    rcases h with h | h | h <;> simp_all
  · intro h
    by_cases h1 : s1.isEmpty = true
    · exact isReqFail_of "Payment Registration No is required"
        (by simp [Mpesa.taxRemittance, h1]) (by decide)
    by_cases h2 : amount = 0
    · exact isReqFail_of "Amount is required"
        (by simp [Mpesa.taxRemittance, h1, h2]) (by decide)
    by_cases h3 : s2.isEmpty = true
    · exact isReqFail_of "Result Url is required"
        (by simp [Mpesa.taxRemittance, h1, h2, h3]) (by decide)
    rcases h with h | h | h <;> simp_all
  · intro h
    by_cases h1 : s1.isEmpty = true
    · exact isReqFail_of "Short code is required"
        (by simp [Mpesa.initiateB2B, h1]) (by decide)
    by_cases h2 : amount = 0
    · exact isReqFail_of "Amount is required"
        (by simp [Mpesa.initiateB2B, h1, h2]) (by decide)
    by_cases h3 : s2.isEmpty = true
    · exact isReqFail_of "Result Url is required"
        (by simp [Mpesa.initiateB2B, h1, h2, h3]) (by decide)
    rcases h with h | h | h <;> simp_all
  · intro h
    by_cases h1 : amount = 0
    · exact isReqFail_of "Amount is required"
        (by simp [Mpesa.initiateB2BExpressCheckout, h1]) (by decide)
    by_cases h2 : s1.isEmpty = true
    · exact isReqFail_of "Short code is required"
        (by simp [Mpesa.initiateB2BExpressCheckout, h1, h2]) (by decide)
    by_cases h3 : s4.isEmpty = true
    · exact isReqFail_of "Partner Name is required"
        (by simp [Mpesa.initiateB2BExpressCheckout, h1, h2, h3]) (by decide)
    by_cases h4 : s2.isEmpty = true
    · exact isReqFail_of "Callback Url is required"
        (by simp [Mpesa.initiateB2BExpressCheckout, h1, h2, h3, h4]) (by decide)
    rcases h with h | h | h | h <;> simp_all
  · intro h
    by_cases h1 : amount = 0
    · exact isReqFail_of "Amount is required" (by simp [Mpesa.mpesaRatiba, h1]) (by decide)
    by_cases h2 : pn.jsFalsy = true
    · exact isReqFail_of "Phone number is required"
        (by simp [Mpesa.mpesaRatiba, h1, h2]) (by decide)
    by_cases h3 : s1.isEmpty = true
    · exact isReqFail_of "Account reference is required"
        (by simp [Mpesa.mpesaRatiba, h1, h2, h3]) (by decide)
    by_cases h4 : s2.isEmpty = true
    · exact isReqFail_of "Callback Url is required"
        (by simp [Mpesa.mpesaRatiba, h1, h2, h3, h4]) (by decide)
    by_cases h5 : s4.isEmpty = true
    · exact isReqFail_of "Start Date is required"
        (by simp [Mpesa.mpesaRatiba, h1, h2, h3, h4, h5]) (by decide)
    by_cases h6 : s5.isEmpty = true
    · exact isReqFail_of "End Date is required"
        (by simp [Mpesa.mpesaRatiba, h1, h2, h3, h4, h5, h6]) (by decide)
    by_cases h7 : s6.isEmpty = true
    · exact isReqFail_of "Standing Order Name is required"
        (by simp [Mpesa.mpesaRatiba, h1, h2, h3, h4, h5, h6, h7]) (by decide)
    rcases h with h | h | h | h | h | h | h <;> simp_all

/-- Witness for C6: `stkPush` with no phone number fails with the
required-field error and an empty event list. -/
theorem claim_C6_witness :
    isReqFail (mA.stkPush wOk 100 (.str "") "acc" "https://cb" "d") = true :=
  (claim_C6 mA wOk 100 (.str "") "acc" "https://cb" "d" "x" "y" "z").1 (Or.inl rfl)

/-- C1 counterexample: with the token fetch healthy and the POST
answered by HTTP 400 with body `{ResponseMessage: "Invalid Amount"}`,
`stkPush` fails with the axios transport message
`Request failed with status code 400` — not `Invalid Amount` — because
axios rejects the non-2xx response and the dispatcher's catch consults
only `errorMessage` and `ResponseDescription`. -/
theorem claim_C1_counterexample :
    (mA.stkPush w400 100 (.str "0712345678") "acc" "https://cb" "d").1 =
      .error "Request failed with status code 400" ∧
    w400.postResult "mpesa/stkpush/v1/processrequest"
        (stkPushPayload mA 100 (.str "0712345678") "acc" "https://cb" "d") =
      .http 400 (some [("ResponseMessage", .jstr "Invalid Amount")]) ∧
    "Request failed with status code 400" ≠ "Invalid Amount" :=
  ⟨rfl, rfl, by decide⟩

/-- C1 (amended): on an HTTP 400 response whose body carries only
`ResponseMessage` (no truthy `errorMessage` or `ResponseDescription`),
`stkPush` fails with the transport message
`Request failed with status code 400`: the dispatcher itself throws on
every non-2xx response — selecting `errorMessage`, then
`ResponseDescription`, then the transport message, never
`ResponseMessage` — and returns the `{body, status}` pair to the caller
only when axios resolves, i.e. only for 2xx responses, so the caller's
status-200/`ResponseMessage` check is unreachable for non-2xx. -/
theorem claim_C1 (c : Mpesa) (w w2 : World) (tok tok2 : String) (amount : Int)
    (pn : PhoneInput) (acct cb d ep : String) (dd body : Body)
    (st : Nat) (ob : Option Body)
    (ha : amount ≠ 0) (hpn : pn.jsFalsy = false) (hacct : acct.isEmpty = false)
    (hcb : cb.isEmpty = false)
    (htok : generateAccessToken w = .ok tok)
    (hpost : w.postResult "mpesa/stkpush/v1/processrequest"
      (stkPushPayload c amount pn acct cb d) = .http 400 (some body))
    (he : truthyStrField body "errorMessage" = none)
    (hrd : truthyStrField body "ResponseDescription" = none)
    (htok2 : generateAccessToken w2 = .ok tok2)
    (hst2 : 200 ≤ st ∧ st < 300)
    (hpost2 : w2.postResult ep dd = .http st ob) :
    c.stkPush w amount pn acct cb d =
      (.error "Request failed with status code 400",
       [.tokenFetch, .post "mpesa/stkpush/v1/processrequest"
         (stkPushPayload c amount pn acct cb d)]) ∧
    sendRequest w "mpesa/stkpush/v1/processrequest"
        (stkPushPayload c amount pn acct cb d) =
      (.error "Request failed with status code 400",
       [.tokenFetch, .post "mpesa/stkpush/v1/processrequest"
         (stkPushPayload c amount pn acct cb d)]) ∧
    sendRequest w2 ep dd = (.ok ⟨ob, st⟩, [.tokenFetch, .post ep dd]) := by
  refine ⟨?_, ?_, ?_⟩
  · rw [stkPush_dispatch c w amount pn acct cb d hpn ha hacct hcb]
    exact dispatch_400 true w _ _ tok body htok hpost he hrd
  · simp [sendRequest, htok, hpost, axiosCall, truthyStrFieldO, he, hrd, Option.orElse]
    rfl
  · simp [sendRequest, htok2, hpost2, axiosCall, hst2]

/-- Witness for the amended C1: the concrete 400 world and a concrete
2xx dispatch. -/
theorem claim_C1_witness :
    mA.stkPush w400 100 (.str "0712345678") "acc" "https://cb" "d" =
      (.error "Request failed with status code 400",
       [.tokenFetch, .post "mpesa/stkpush/v1/processrequest"
         (stkPushPayload mA 100 (.str "0712345678") "acc" "https://cb" "d")]) ∧
    sendRequest w400 "mpesa/stkpush/v1/processrequest"
        (stkPushPayload mA 100 (.str "0712345678") "acc" "https://cb" "d") =
      (.error "Request failed with status code 400",
       [.tokenFetch, .post "mpesa/stkpush/v1/processrequest"
         (stkPushPayload mA 100 (.str "0712345678") "acc" "https://cb" "d")]) ∧
    sendRequest wOk "x" [] = (.ok ⟨some bodyA, 200⟩, [.tokenFetch, .post "x" []]) :=
  claim_C1 mA w400 wOk "tok" "tok" 100 (.str "0712345678") "acc" "https://cb" "d" "x"
    [] [("ResponseMessage", .jstr "Invalid Amount")] 200 (some bodyA)
    (by decide) rfl rfl rfl rfl rfl rfl rfl rfl (by decide) rfl
